import Mathlib

set_option maxRecDepth 8000

/-
Shallow embedding of the Change Risk & Quality Analysis Engine of
src/github_tools.py: file classification (get_file_type), patch parsing and
line signal extraction (analyze_file_diff / analyze_line_content), per-file
risk assessment (assess_change_risk), and change-set aggregation
(calculate_pr_risk, generate_pr_summary, calculate_code_quality_metrics).

Python strings are modelled as Lean `String`, with all character-level
operations implemented over `String.data : List Char` so that they are
structurally recursive and kernel-executable.  Python `float` averages are
modelled as exact rationals (`ℚ`); `int(x)` on a non-negative value is
`Int.floor`.  Python dicts of fixed key sets are modelled as structures.
-/

/-- Characters Python's `str.strip` and the regex class `\s` treat as
whitespace (ASCII range). -/
def isPySpace (c : Char) : Bool :=
  c == ' ' || c == '\t' || c == '\n' || c == '\r' || c == '\x0b' || c == '\x0c'

/-- Characters matched by the regex class `\w` (ASCII range). -/
def isWordChar (c : Char) : Bool := c.isAlphanum || c == '_'

/-- Drop a literal character sequence from the front of the input; `none`
if the input does not start with it. -/
def dropLit : List Char → List Char → Option (List Char)
  | [], cs => some cs
  | _ :: _, [] => none
  | l :: ls, c :: cs => if c == l then dropLit ls cs else none

/-- `p` is a leading sequence of `cs`. -/
def listHasPre (p cs : List Char) : Bool := (dropLit p cs).isSome

/-- `needle` occurs as a contiguous subsequence of the input. -/
def listHasSub (needle : List Char) : List Char → Bool
  | [] => needle.isEmpty
  | c :: cs => listHasPre needle (c :: cs) || listHasSub needle cs

/-- Python `s.startswith(p)`. -/
def strStartsWith (s p : String) : Bool := listHasPre p.data s.data

/-- Python `sub in s` (substring containment). -/
def strHasSub (s sub : String) : Bool := listHasSub sub.data s.data

/-- Python `s.lower()` (ASCII inputs). -/
def strToLower (s : String) : String := String.mk (s.data.map Char.toLower)

/-- Python `s.strip()`. -/
def trimData (cs : List Char) : List Char :=
  ((cs.dropWhile isPySpace).reverse.dropWhile isPySpace).reverse

/-- Python `s.strip()`, on strings. -/
def strTrim (s : String) : String := String.mk (trimData s.data)

/-- Python `s[1:]`. -/
def strDrop1 (s : String) : String := String.mk (s.data.drop 1)

/-- Python `s.split(sep)` for a one-character separator, on char lists. -/
def splitCharList (sep : Char) : List Char → List (List Char)
  | [] => [[]]
  | c :: cs =>
    let r := splitCharList sep cs
    if c == sep then [] :: r
    else
      match r with
      | [] => [[c]]
      | h :: t => (c :: h) :: t

/-- Python `patch.split(chr(10))`. -/
def splitLines (s : String) : List String := (splitCharList '\n' s.data).map String.mk

/-- A `\b` word boundary holds against this neighbouring character
(or against the edge of the string). -/
def boundaryOk : Option Char → Bool
  | none => true
  | some c => !isWordChar c

/-- The word `needle` occurs at the head of `hay` with a word boundary
immediately after it. -/
def wordAt (needle hay : List Char) : Bool :=
  match dropLit needle hay with
  | some rest => boundaryOk rest.head?
  | none => false

/-- Scan `hay` for an occurrence of `needle` delimited by word boundaries;
`prev` is the character just before the current position. -/
def wordSearchAux (needle : List Char) : Option Char → List Char → Bool
  | _, [] => false
  | prev, c :: cs => (boundaryOk prev && wordAt needle (c :: cs)) || wordSearchAux needle (some c) cs

/-- `re.search` of `\b<needle>\b` where `needle` starts and ends with `\w`
characters (true of every word alternative in the critical-pattern table). -/
def listWordSearch (needle hay : List Char) : Bool := wordSearchAux needle none hay

/-- First character, if any, is a `\w` character. -/
def hasWordHead : List Char → Bool
  | c :: _ => isWordChar c
  | [] => false

/-- `re.match(r'def\s+\w+\s*\(', line)` together with the name captured by
`re.search(r'def\s+(\w+)', line)`: when the anchored match succeeds, the
search also matches at position 0 and captures exactly the `\w+` word
parsed here, so the two regex calls of the source collapse to one parse. -/
def pyDefName (cs : List Char) : Option String :=
  match dropLit ['d', 'e', 'f'] cs with
  | none => none
  | some r1 =>
    match r1 with
    | [] => none
    | c :: cs' =>
      if isPySpace c then
        match (cs'.dropWhile isPySpace).span isWordChar with
        | (w, r3) =>
          if w.isEmpty then none
          else
            match r3.dropWhile isPySpace with
            | '(' :: _ => some (String.mk w)
            | _ => none
      else none

/-- First alternative of the JS function regex: `function\s+\w+`. -/
def jsAltFunction (cs : List Char) : Bool :=
  match dropLit ['f', 'u', 'n', 'c', 't', 'i', 'o', 'n'] cs with
  | none => false
  | some r1 =>
    match r1 with
    | [] => false
    | c :: cs' => isPySpace c && hasWordHead (cs'.dropWhile isPySpace)

/-- Second alternative: `const\s+\w+\s*=.*=>` (`.` does not cross a newline). -/
def jsAltConst (cs : List Char) : Bool :=
  match dropLit ['c', 'o', 'n', 's', 't'] cs with
  | none => false
  | some r1 =>
    match r1 with
    | [] => false
    | c :: cs' =>
      if isPySpace c then
        match (cs'.dropWhile isPySpace).span isWordChar with
        | (w, r3) =>
          if w.isEmpty then false
          else
            match r3.dropWhile isPySpace with
            | '=' :: rest => listHasSub ['=', '>'] (rest.takeWhile (fun d => !(d == '\n')))
            | _ => false
      else false

/-- Third alternative: `\w+\s*:\s*function`. -/
def jsAltMethod (cs : List Char) : Bool :=
  match cs.span isWordChar with
  | (w, r) =>
    if w.isEmpty then false
    else
      match r.dropWhile isPySpace with
      | ':' :: r2 => listHasPre ['f', 'u', 'n', 'c', 't', 'i', 'o', 'n'] (r2.dropWhile isPySpace)
      | _ => false

/-- `re.match(r'(function\s+\w+|const\s+\w+\s*=.*=>|\w+\s*:\s*function)', line)`. -/
def jsFuncMatch (cs : List Char) : Bool := jsAltFunction cs || jsAltConst cs || jsAltMethod cs

/-- Decimal value of a digit run. -/
def digitsToNat (ds : List Char) : Nat := ds.foldl (fun n c => n * 10 + (c.toNat - '0'.toNat)) 0

/-- `re.search(r'\+(\d+)', line)`: the digit run following the leftmost `+`
that is immediately followed by at least one digit. -/
def findPlusNum : List Char → Option Nat
  | [] => none
  | c :: cs =>
    if c == '+' then
      match cs.takeWhile Char.isDigit with
      | [] => findPlusNum cs
      | ds => some (digitsToNat ds)
    else findPlusNum cs

/-- One entry of `lines_added` / `lines_removed`. -/
structure LineRec where
  line_num : Nat
  content : String
deriving DecidableEq

/-- One entry of `config_changes`: `{'type': change_type, 'content': line}`. -/
structure ConfigChange where
  type : String
  content : String
deriving DecidableEq

/-- One entry of `critical_patterns`:
`{'pattern': pattern, 'line': line, 'type': change_type}`. -/
structure PatternHit where
  pattern : String
  line : String
  type : String
deriving DecidableEq

/-- The `changes` accumulator dict of `analyze_file_diff`.  The dict built by
the source has exactly the eight keys of `changesDictKeys`; the extra field
`functions_removed` models the *absent* key of that name, which
`calculate_code_quality_metrics` reads via `changes.get('functions_removed')`
(always `None` on dicts built by `analyze_file_diff`).  Writes into the dict
are guarded by membership in `changesDictKeys` (`if key in changes`), so this
field is never appended to. -/
structure Changes where
  lines_added : List LineRec
  lines_removed : List LineRec
  functions_added : List String
  functions_modified : List String
  imports_added : List String
  imports_removed : List String
  config_changes : List ConfigChange
  critical_patterns : List PatternHit
  functions_removed : List String
deriving DecidableEq

/-- The key set of the `changes` dict literal in `analyze_file_diff`. -/
def changesDictKeys : List String :=
  ["lines_added", "lines_removed", "functions_added", "functions_modified",
   "imports_added", "imports_removed", "config_changes", "critical_patterns"]

/-- The freshly initialized `changes` dict (all buckets empty). -/
def emptyChanges : Changes := ⟨[], [], [], [], [], [], [], [], []⟩

/-- `changes[key].append(value)` for the dynamically computed string bucket
keys the source uses (`functions_<ct>` / `imports_<ct>`); keys naming the
non-string buckets are never produced by the call sites, so they fall
through unchanged. -/
def appendToBucket (c : Changes) (key : String) (v : String) : Changes :=
  if key = "functions_added" then { c with functions_added := c.functions_added ++ [v] }
  else if key = "functions_modified" then { c with functions_modified := c.functions_modified ++ [v] }
  else if key = "functions_removed" then { c with functions_removed := c.functions_removed ++ [v] }
  else if key = "imports_added" then { c with imports_added := c.imports_added ++ [v] }
  else if key = "imports_removed" then { c with imports_removed := c.imports_removed ++ [v] }
  else c

/-- `if key in changes: changes[key].append(value)`. -/
def appendIfKey (c : Changes) (key : String) (v : String) : Changes :=
  if changesDictKeys.contains key then appendToBucket c key v else c

/-- One row of the critical-pattern table: the regex source text, the word
alternatives it matches, and whether they are `\b`-delimited (the URL
pattern `(http|https)://.*` is the only one that is not). -/
structure CriticalPattern where
  source : String
  alts : List String
  boundary : Bool

/-- The six critical patterns, in source order. -/
def critical_patterns_list : List CriticalPattern :=
  [⟨"\\b(password|secret|key|token)\\b", ["password", "secret", "key", "token"], true⟩,
   ⟨"\\b(delete|drop|truncate)\\b", ["delete", "drop", "truncate"], true⟩,
   ⟨"\\b(sudo|chmod|chown)\\b", ["sudo", "chmod", "chown"], true⟩,
   ⟨"\\b(eval|exec|system)\\b", ["eval", "exec", "system"], true⟩,
   ⟨"(http|https)://.*", ["http://", "https://"], false⟩,
   ⟨"\\b(localhost|127\\.0\\.0\\.1)\\b", ["localhost", "127.0.0.1"], true⟩]

/-- `re.search(pattern, line, re.IGNORECASE)` for one pattern row, against the
already-lowercased line. -/
def critical_matches (cp : CriticalPattern) (lower : List Char) : Bool :=
  cp.alts.any (fun w =>
    if cp.boundary then listWordSearch w.data lower else listHasSub w.data lower)

/-- The extension → type table of `get_file_type`. -/
def type_mapping : List (String × String) :=
  [("py", "python"), ("js", "javascript"), ("ts", "typescript"), ("jsx", "react"),
   ("tsx", "react"), ("java", "java"), ("go", "go"), ("rs", "rust"), ("cpp", "cpp"),
   ("c", "c"), ("yml", "yaml"), ("yaml", "yaml"), ("json", "json"), ("xml", "xml"),
   ("sql", "sql"), ("sh", "shell"), ("dockerfile", "docker"), ("tf", "terraform"),
   ("md", "markdown")]

/-- `get_file_type(filename)`: classify a filename into a type tag.  The
extension is the text after the last `.` (empty when the name has no dot),
lower-cased; the name checks compare the *whole* lower-cased filename. -/
def get_file_type (filename : String) : String :=
  let ext :=
    if filename.data.contains '.' then
      strToLower (String.mk ((splitCharList '.' filename.data).getLastD []))
    else ""
  let lower := strToLower filename
  if strHasSub lower "dockerfile" then "docker"
  else if (["makefile", "makefile.am", "makefile.in"] : List String).contains lower then "makefile"
  else if (["requirements.txt", "package.json", "cargo.toml", "pom.xml"] : List String).contains lower then "dependency"
  else if strHasSub lower "config" || (["conf", "cfg", "ini", "env"] : List String).contains ext then "config"
  else ((type_mapping.lookup ext).getD "unknown")

/-- Language-specific signal extraction of `analyze_line_content` (the
function-definition and import-statement sections), on the stripped line. -/
def lang_signals (ls : String) (changes : Changes) (change_type file_type : String) : Changes :=
  if file_type = "python" then
    let changes :=
      match pyDefName ls.data with
      | some name => appendIfKey changes ("functions_" ++ change_type) name
      | none => changes
    if strStartsWith ls "import " || strStartsWith ls "from " then
      appendIfKey changes ("imports_" ++ change_type) ls
    else changes
  else if file_type = "javascript" || file_type = "typescript" then
    let changes :=
      if jsFuncMatch ls.data then
        appendIfKey changes ("functions_" ++ change_type)
          (if ls.data.length > 50 then String.mk (ls.data.take 50) ++ "..." else ls)
      else changes
    if strStartsWith ls "import " || strStartsWith ls "require(" then
      appendIfKey changes ("imports_" ++ change_type) ls
    else changes
  else changes

/-- Critical-pattern section of `analyze_line_content`: every matching
pattern appends one entry. -/
def critical_signals (ls : String) (changes : Changes) (change_type : String) : Changes :=
  critical_patterns_list.foldl (fun ch cp =>
    if critical_matches cp (strToLower ls).data then
      { ch with critical_patterns := ch.critical_patterns ++ [⟨cp.source, ls, change_type⟩] }
    else ch) changes

/-- Configuration-change section of `analyze_line_content`.  The source's
condition is `file_type in ['yaml', 'json', 'config'] or 'config' in changes`;
the second disjunct is dict-key membership, modelled against
`changesDictKeys` (it is always false). -/
def config_signals (ls : String) (changes : Changes) (change_type file_type : String) : Changes :=
  if (["yaml", "json", "config"] : List String).contains file_type
      || changesDictKeys.contains "config" then
    { changes with config_changes := changes.config_changes ++ [⟨change_type, ls⟩] }
  else changes

/-- `analyze_line_content(line, changes, change_type, file_type)`. -/
def analyze_line_content (line : String) (changes : Changes) (change_type file_type : String) : Changes :=
  let line_stripped := strTrim line
  config_signals line_stripped
    (critical_signals line_stripped
      (lang_signals line_stripped changes change_type file_type) change_type)
    change_type file_type

/-- One iteration of the patch-line loop of `analyze_file_diff`; the state is
`(current_line_num, changes)`. -/
def processPatchLine (file_type : String) (st : Nat × Changes) (line : String) : Nat × Changes :=
  let current := st.1
  let changes := st.2
  if strStartsWith line "@@" then
    match findPlusNum line.data with
    | some n => (n, changes)
    | none => (current, changes)
  else if strStartsWith line "+" && !strStartsWith line "+++" then
    let added := strDrop1 line
    let changes := { changes with lines_added := changes.lines_added ++ [⟨current, added⟩] }
    (current + 1, analyze_line_content added changes "added" file_type)
  else if strStartsWith line "-" && !strStartsWith line "---" then
    let removed := strDrop1 line
    let changes := { changes with lines_removed := changes.lines_removed ++ [⟨current, removed⟩] }
    (current, analyze_line_content removed changes "removed" file_type)
  else if !strStartsWith line "\\" then
    (current + 1, changes)
  else
    (current, changes)

/-- The substrings whose presence in the lower-cased filename makes it a
high-risk file for `assess_change_risk`. -/
def high_risk_file_names : List String :=
  ["dockerfile", "docker-compose", "requirements.txt", "package.json",
   "makefile", ".env", "config", "settings"]

/-- The additive `risk_score` accumulated by `assess_change_risk`. -/
def change_risk_score (changes : Changes) (file_type : String) (filename : String) : Nat :=
  let s : Nat := 0
  let s := if (["config", "yaml", "json", "docker", "terraform"] : List String).contains file_type then s + 2 else s
  let s := if high_risk_file_names.any (fun rf => strHasSub (strToLower filename) rf) then s + 2 else s
  let s := if !changes.functions_added.isEmpty || !changes.functions_modified.isEmpty then s + 1 else s
  let s := if !changes.imports_added.isEmpty || !changes.imports_removed.isEmpty then s + 1 else s
  let s := if !changes.critical_patterns.isEmpty then s + 3 else s
  let s := if !changes.config_changes.isEmpty then s + 2 else s
  s

/-- `assess_change_risk(changes, file_type, filename)`. -/
def assess_change_risk (changes : Changes) (file_type : String) (filename : String) : String :=
  let risk_score := change_risk_score changes file_type filename
  if risk_score ≥ 5 then "high"
  else if risk_score ≥ 3 then "medium"
  else "low"

/-- `generate_change_summary(changes, file_type)` (the `file_type` parameter
is unused by the source body). -/
def generate_change_summary (changes : Changes) (_file_type : String) : String :=
  let parts : List String := []
  let parts := if !changes.functions_added.isEmpty then
    parts ++ ["Added " ++ toString changes.functions_added.length ++ " functions"] else parts
  let parts := if !changes.functions_modified.isEmpty then
    parts ++ ["Modified " ++ toString changes.functions_modified.length ++ " functions"] else parts
  let parts := if !changes.imports_added.isEmpty then
    parts ++ ["Added " ++ toString changes.imports_added.length ++ " imports"] else parts
  let parts := if !changes.imports_removed.isEmpty then
    parts ++ ["Removed " ++ toString changes.imports_removed.length ++ " imports"] else parts
  let parts := if !changes.config_changes.isEmpty then
    parts ++ ["Modified configuration (" ++ toString changes.config_changes.length ++ " changes)"] else parts
  let parts := if !changes.critical_patterns.isEmpty then
    parts ++ ["⚠️ Contains " ++ toString changes.critical_patterns.length ++ " critical patterns"] else parts
  let la := changes.lines_added.length
  let lr := changes.lines_removed.length
  let parts := if la ≠ 0 || lr ≠ 0 then
    parts ++ ["+" ++ toString la ++ " -" ++ toString lr ++ " lines"] else parts
  if !parts.isEmpty then String.intercalate "; " parts else "No significant changes detected"

/-- One per-file analysis record.  The empty-patch fast path of the source
returns a dict without a `summary` key and with an empty `changes` dict;
the latter is modelled by `emptyChanges` (observationally equal under the
`.get` reads performed downstream), the former by `summary = none`. -/
structure FileAnalysis where
  filename : String
  file_type : String
  changes : Changes
  risk_level : String
  summary : Option String
deriving DecidableEq

/-- `analyze_file_diff(filename, patch)`; `patch` may be `None` (absent). -/
def analyze_file_diff (filename : String) (patch : Option String) : FileAnalysis :=
  match patch with
  | none =>
    { filename := filename, file_type := get_file_type filename,
      changes := emptyChanges, risk_level := "low", summary := none }
  | some p =>
    if p = "" then
      { filename := filename, file_type := get_file_type filename,
        changes := emptyChanges, risk_level := "low", summary := none }
    else
      let file_type := get_file_type filename
      let changes := ((splitLines p).foldl (processPatchLine file_type) (0, emptyChanges)).2
      { filename := filename, file_type := file_type, changes := changes,
        risk_level := assess_change_risk changes file_type filename,
        summary := some (generate_change_summary changes file_type) }

/-- The `risk_scores` weight table of `calculate_pr_risk`
(`{'low': 1, 'medium': 3, 'high': 5}`, default 1). -/
def risk_scores_get (level : String) : Nat :=
  if level = "low" then 1
  else if level = "medium" then 3
  else if level = "high" then 5
  else 1

/-- The average-score thresholding of `calculate_pr_risk`. -/
def avg_level (avg_score : ℚ) : String :=
  if avg_score ≥ 4 then "high"
  else if avg_score ≥ 2 then "medium"
  else "low"

/-- `calculate_pr_risk(file_analyses)`. -/
def calculate_pr_risk (file_analyses : List FileAnalysis) : String :=
  if file_analyses.isEmpty then "low"
  else
    let total_score : Nat := (file_analyses.map (fun a => risk_scores_get a.risk_level)).sum
    let avg_score : ℚ := (total_score : ℚ) / (file_analyses.length : ℚ)
    avg_level avg_score

/-- Insertion-order counter update: `file_types[ft] = file_types.get(ft, 0) + 1`
on a Python dict modelled as an association list. -/
def bump_type_count : List (String × Nat) → String → List (String × Nat)
  | [], ft => [(ft, 1)]
  | (k, v) :: rest, ft =>
    if k = ft then (k, v + 1) :: rest else (k, v) :: bump_type_count rest ft

/-- Stable descending insertion by count, modelling
`sorted(items, key=lambda x: x[1], reverse=True)`. -/
def insertByCountDesc (x : String × Nat) : List (String × Nat) → List (String × Nat)
  | [] => [x]
  | y :: ys => if y.2 > x.2 then y :: insertByCountDesc x ys else x :: y :: ys

/-- Stable descending sort by count. -/
def sortByCountDesc : List (String × Nat) → List (String × Nat)
  | [] => []
  | x :: xs => insertByCountDesc x (sortByCountDesc xs)

/-- `generate_pr_summary(file_analyses)`. -/
def generate_pr_summary (file_analyses : List FileAnalysis) : String :=
  if file_analyses.isEmpty then "No file analysis available"
  else
    let file_types := file_analyses.foldl (fun m a => bump_type_count m a.file_type) []
    let high_risk_files := file_analyses.countP (fun a => a.risk_level = "high")
    let total_functions_changed :=
      (file_analyses.map (fun a => a.changes.functions_added.length + a.changes.functions_modified.length)).sum
    let total_imports_changed :=
      (file_analyses.map (fun a => a.changes.imports_added.length + a.changes.imports_removed.length)).sum
    let config_files_changed := file_analyses.countP (fun a =>
      (["config", "yaml", "json"] : List String).contains a.file_type
        || strHasSub (strToLower a.filename) "config")
    let critical_patterns_found :=
      (file_analyses.map (fun a => a.changes.critical_patterns.length)).sum
    let parts : List String := [toString file_analyses.length ++ " files changed"]
    let parts := if !file_types.isEmpty then
      let top_types := (sortByCountDesc file_types).take 3
      parts ++ ["Types: " ++ String.intercalate ", "
        (top_types.map (fun p => toString p.2 ++ " " ++ p.1))]
      else parts
    let parts := if high_risk_files ≠ 0 then
      parts ++ ["⚠️ " ++ toString high_risk_files ++ " high-risk files"] else parts
    let parts := if total_functions_changed ≠ 0 then
      parts ++ [toString total_functions_changed ++ " functions changed"] else parts
    let parts := if total_imports_changed ≠ 0 then
      parts ++ [toString total_imports_changed ++ " imports changed"] else parts
    let parts := if config_files_changed ≠ 0 then
      parts ++ [toString config_files_changed ++ " config files"] else parts
    let parts := if critical_patterns_found ≠ 0 then
      parts ++ ["🚨 " ++ toString critical_patterns_found ++ " critical patterns"] else parts
    String.intercalate "; " parts

/-- The quality-metrics record of `calculate_code_quality_metrics`. -/
structure QualityMetrics where
  complexity_score : Int
  maintainability_score : Int
  security_risk_score : Int
  test_coverage_impact : String
  documentation_impact : String
  dependency_risk : String
  breaking_change_risk : String
  performance_impact : String
deriving DecidableEq

/-- The initializer dict of `calculate_code_quality_metrics`, returned
unchanged when `file_analyses` is empty. -/
def default_quality_metrics : QualityMetrics :=
  { complexity_score := 0, maintainability_score := 0, security_risk_score := 0,
    test_coverage_impact := "unknown", documentation_impact := "none",
    dependency_risk := "low", breaking_change_risk := "low", performance_impact := "low" }

/-- The `complexity_factors` accumulator of the metrics loop. -/
def complexity_factors_of (file_analyses : List FileAnalysis) : Nat :=
  file_analyses.foldl (fun acc a =>
    let acc := if !a.changes.functions_added.isEmpty || !a.changes.functions_modified.isEmpty then
      acc + a.changes.functions_added.length + a.changes.functions_modified.length else acc
    if !a.changes.imports_added.isEmpty || !a.changes.imports_removed.isEmpty then
      acc + a.changes.imports_added.length + a.changes.imports_removed.length else acc) 0

/-- The `security_issues` accumulator of the metrics loop. -/
def security_issues_of (file_analyses : List FileAnalysis) : Nat :=
  file_analyses.foldl (fun acc a => acc + a.changes.critical_patterns.length) 0

/-- The `config_changes` counter of the metrics loop. -/
def config_changes_count (file_analyses : List FileAnalysis) : Nat :=
  file_analyses.foldl (fun acc a =>
    if (["config", "yaml", "json"] : List String).contains a.file_type
        || strHasSub (strToLower a.filename) "config" then acc + 1 else acc) 0

/-- The `test_files` counter of the metrics loop. -/
def test_files_count (file_analyses : List FileAnalysis) : Nat :=
  file_analyses.foldl (fun acc a =>
    if strHasSub (strToLower a.filename) "test"
        || (["test", "spec"] : List String).contains a.file_type then acc + 1 else acc) 0

/-- The `doc_files` counter of the metrics loop. -/
def doc_files_count (file_analyses : List FileAnalysis) : Nat :=
  file_analyses.foldl (fun acc a =>
    if a.file_type = "markdown" || strHasSub (strToLower a.filename) "readme"
        || strHasSub (strToLower a.filename) "doc" then acc + 1 else acc) 0

/-- The `dependency_files` counter of the metrics loop. -/
def dependency_files_count (file_analyses : List FileAnalysis) : Nat :=
  file_analyses.foldl (fun acc a => if a.file_type = "dependency" then acc + 1 else acc) 0

/-- The `breaking_changes` counter of the metrics loop:
`changes.get('functions_removed') or (file_type in ['config','yaml'] and risk_level == 'high')`. -/
def breaking_changes_count (file_analyses : List FileAnalysis) : Nat :=
  file_analyses.foldl (fun acc a =>
    if !a.changes.functions_removed.isEmpty
        || ((["config", "yaml"] : List String).contains a.file_type && a.risk_level == "high") then
      acc + 1 else acc) 0

/-- The `perf_impact_files` count of the metrics function. -/
def perf_impact_files_count (file_analyses : List FileAnalysis) : Nat :=
  file_analyses.countP (fun a =>
    (["config", "sql", "docker"] : List String).contains a.file_type
      || strHasSub (strToLower a.filename) "performance"
      || strHasSub (strToLower a.filename) "cache")

/-- `calculate_code_quality_metrics(file_analyses)`.  Float averages are
modelled exactly in `ℚ`; `int(x)` of a non-negative value is `Int.floor`. -/
def calculate_code_quality_metrics (file_analyses : List FileAnalysis) : QualityMetrics :=
  if file_analyses.isEmpty then default_quality_metrics
  else
    let total_files := file_analyses.length
    let complexity_factors := complexity_factors_of file_analyses
    let security_issues := security_issues_of file_analyses
    let config_changes := config_changes_count file_analyses
    let test_files := test_files_count file_analyses
    let doc_files := doc_files_count file_analyses
    let dependency_files := dependency_files_count file_analyses
    let breaking_changes := breaking_changes_count file_analyses
    let complexity_per_file : ℚ := (complexity_factors : ℚ) / (total_files : ℚ)
    let maintainability : Int := 100
    let maintainability := if complexity_per_file > 3 then maintainability - 30 else maintainability
    let maintainability := if security_issues > 0 then maintainability - 20 else maintainability
    let maintainability :=
      if (config_changes : ℚ) > (total_files : ℚ) * (0.3 : ℚ) then maintainability - 15
      else maintainability
    let security_per_file : ℚ := (security_issues : ℚ) / (total_files : ℚ)
    let perf_impact_files := perf_impact_files_count file_analyses
    { complexity_score := min 100 (Int.floor (complexity_per_file * 20)),
      maintainability_score := max 0 maintainability,
      security_risk_score := min 100 (Int.floor (security_per_file * 50)),
      test_coverage_impact :=
        if test_files > 0 then
          let test_ratio : ℚ := (test_files : ℚ) / (total_files : ℚ)
          if test_ratio ≥ (0.3 : ℚ) then "improved"
          else if test_ratio ≥ (0.1 : ℚ) then "maintained"
          else "minimal"
        else "none",
      documentation_impact := if doc_files > 0 then "updated" else "none",
      dependency_risk :=
        if dependency_files > 0 then (if dependency_files > 2 then "high" else "medium")
        else "low",
      breaking_change_risk :=
        if breaking_changes > 0 then (if breaking_changes > 2 then "high" else "medium")
        else "low",
      performance_impact :=
        if (perf_impact_files : ℚ) > (total_files : ℚ) * (0.2 : ℚ) then "high"
        else if perf_impact_files > 0 then "medium"
        else "low" }

/-- Rank of a risk tier under the ordering low < medium < high (strings
outside the tier set rank lowest). -/
def risk_rank (level : String) : Nat :=
  if level = "high" then 2 else if level = "medium" then 1 else 0

/-- A line of a patch that the spec counts as a changed line: it starts with
`+` or `-` but is not a `+++`/`---` metadata marker. -/
def is_change_line (l : String) : Bool :=
  (strStartsWith l "+" || strStartsWith l "-")
    && !strStartsWith l "+++" && !strStartsWith l "---"

/-- Modelled from the claim's words: breaking-change risk as a function of
the number of high-risk config/yaml files (0 → low, 1–2 → medium, more
than 2 → high). -/
def claimed_breaking_risk_of_count (n : Nat) : String :=
  if n = 0 then "low" else if n ≤ 2 then "medium" else "high"

theorem appendIfKey_lines_added (c : Changes) (k v : String) :
    (appendIfKey c k v).lines_added = c.lines_added := by
  unfold appendIfKey appendToBucket
  split_ifs <;> rfl

theorem appendIfKey_lines_removed (c : Changes) (k v : String) :
    (appendIfKey c k v).lines_removed = c.lines_removed := by
  unfold appendIfKey appendToBucket
  split_ifs <;> rfl

theorem appendIfKey_config_changes (c : Changes) (k v : String) :
    (appendIfKey c k v).config_changes = c.config_changes := by
  unfold appendIfKey appendToBucket
  split_ifs <;> rfl

theorem appendIfKey_critical_patterns (c : Changes) (k v : String) :
    (appendIfKey c k v).critical_patterns = c.critical_patterns := by
  unfold appendIfKey appendToBucket
  split_ifs <;> rfl

/-- `functions_removed` is not a key of the dict, so no guarded append ever
reaches it, whatever the computed key is. -/
theorem appendIfKey_functions_removed (c : Changes) (k v : String) :
    (appendIfKey c k v).functions_removed = c.functions_removed := by
  unfold appendIfKey appendToBucket
  split_ifs <;> simp_all [changesDictKeys]

theorem appendIfKey_functions_added_ne (c : Changes) (k v : String) (h : k ≠ "functions_added") :
    (appendIfKey c k v).functions_added = c.functions_added := by
  unfold appendIfKey appendToBucket
  split_ifs <;> simp_all

theorem appendIfKey_functions_modified_ne (c : Changes) (k v : String) (h : k ≠ "functions_modified") :
    (appendIfKey c k v).functions_modified = c.functions_modified := by
  unfold appendIfKey appendToBucket
  split_ifs <;> simp_all

theorem appendIfKey_imports_added_ne (c : Changes) (k v : String) (h : k ≠ "imports_added") :
    (appendIfKey c k v).imports_added = c.imports_added := by
  unfold appendIfKey appendToBucket
  split_ifs <;> simp_all

theorem appendIfKey_imports_removed_ne (c : Changes) (k v : String) (h : k ≠ "imports_removed") :
    (appendIfKey c k v).imports_removed = c.imports_removed := by
  unfold appendIfKey appendToBucket
  split_ifs <;> simp_all

theorem appendIfKey_functions_added_eq (c : Changes) (v : String) :
    (appendIfKey c "functions_added" v).functions_added = c.functions_added ++ [v] := rfl

theorem appendIfKey_imports_added_eq (c : Changes) (v : String) :
    (appendIfKey c "imports_added" v).imports_added = c.imports_added ++ [v] := rfl

theorem appendIfKey_imports_removed_eq (c : Changes) (v : String) :
    (appendIfKey c "imports_removed" v).imports_removed = c.imports_removed ++ [v] := rfl

/-- The computed key `functions_removed` is guarded out by `if key in changes`. -/
theorem appendIfKey_functions_removed_key (c : Changes) (v : String) :
    appendIfKey c "functions_removed" v = c := rfl

/-- `lang_signals` never touches the line records, the config bucket, the
critical bucket, or the absent `functions_removed` bucket. -/
theorem lang_signals_preserves (ls : String) (c : Changes) (ct ft : String) :
    (lang_signals ls c ct ft).lines_added = c.lines_added ∧
    (lang_signals ls c ct ft).lines_removed = c.lines_removed ∧
    (lang_signals ls c ct ft).config_changes = c.config_changes ∧
    (lang_signals ls c ct ft).critical_patterns = c.critical_patterns ∧
    (lang_signals ls c ct ft).functions_removed = c.functions_removed := by
  unfold lang_signals
  split_ifs <;> cases hd : pyDefName ls.data <;>
    simp [appendIfKey_lines_added, appendIfKey_lines_removed, appendIfKey_config_changes,
      appendIfKey_critical_patterns, appendIfKey_functions_removed]

/-- With change type `added` or `removed` the key `functions_<ct>` is never
`functions_modified`, so `lang_signals` preserves that bucket. -/
theorem lang_signals_functions_modified (ls : String) (c : Changes) (ct ft : String)
    (h : ct = "added" ∨ ct = "removed") :
    (lang_signals ls c ct ft).functions_modified = c.functions_modified := by
  have hkey : ("functions_" ++ ct : String) ≠ "functions_modified" := by
    rcases h with h | h <;> subst h <;> decide
  have hkey2 : ("imports_" ++ ct : String) ≠ "functions_modified" := by
    rcases h with h | h <;> subst h <;> decide
  unfold lang_signals
  split_ifs <;> cases hd : pyDefName ls.data <;>
    simp [appendIfKey_functions_modified_ne _ _ _ hkey,
      appendIfKey_functions_modified_ne _ _ _ hkey2]

/-- The one-pattern step of the critical-pattern fold. -/
theorem crit_foldl_preserves (ls ct : String) (ps : List CriticalPattern) :
    ∀ c : Changes,
      ((ps.foldl (fun ch cp =>
          if critical_matches cp (strToLower ls).data then
            { ch with critical_patterns := ch.critical_patterns ++ [⟨cp.source, ls, ct⟩] }
          else ch) c).lines_added = c.lines_added) ∧
      ((ps.foldl (fun ch cp =>
          if critical_matches cp (strToLower ls).data then
            { ch with critical_patterns := ch.critical_patterns ++ [⟨cp.source, ls, ct⟩] }
          else ch) c).lines_removed = c.lines_removed) ∧
      ((ps.foldl (fun ch cp =>
          if critical_matches cp (strToLower ls).data then
            { ch with critical_patterns := ch.critical_patterns ++ [⟨cp.source, ls, ct⟩] }
          else ch) c).functions_added = c.functions_added) ∧
      ((ps.foldl (fun ch cp =>
          if critical_matches cp (strToLower ls).data then
            { ch with critical_patterns := ch.critical_patterns ++ [⟨cp.source, ls, ct⟩] }
          else ch) c).functions_modified = c.functions_modified) ∧
      ((ps.foldl (fun ch cp =>
          if critical_matches cp (strToLower ls).data then
            { ch with critical_patterns := ch.critical_patterns ++ [⟨cp.source, ls, ct⟩] }
          else ch) c).functions_removed = c.functions_removed) ∧
      ((ps.foldl (fun ch cp =>
          if critical_matches cp (strToLower ls).data then
            { ch with critical_patterns := ch.critical_patterns ++ [⟨cp.source, ls, ct⟩] }
          else ch) c).imports_added = c.imports_added) ∧
      ((ps.foldl (fun ch cp =>
          if critical_matches cp (strToLower ls).data then
            { ch with critical_patterns := ch.critical_patterns ++ [⟨cp.source, ls, ct⟩] }
          else ch) c).imports_removed = c.imports_removed) ∧
      ((ps.foldl (fun ch cp =>
          if critical_matches cp (strToLower ls).data then
            { ch with critical_patterns := ch.critical_patterns ++ [⟨cp.source, ls, ct⟩] }
          else ch) c).config_changes = c.config_changes) := by
  induction ps with
  | nil => intro c; exact ⟨rfl, rfl, rfl, rfl, rfl, rfl, rfl, rfl⟩
  | cons p ps ih =>
    intro c
    rw [List.foldl_cons]
    obtain ⟨h1, h2, h3, h4, h5, h6, h7, h8⟩ :=
      ih (if critical_matches p (strToLower ls).data then
        { c with critical_patterns := c.critical_patterns ++ [⟨p.source, ls, ct⟩] } else c)
    refine ⟨h1.trans ?_, h2.trans ?_, h3.trans ?_, h4.trans ?_,
      h5.trans ?_, h6.trans ?_, h7.trans ?_, h8.trans ?_⟩ <;> split <;> rfl

/-- `critical_signals` only ever appends to `critical_patterns`. -/
theorem critical_signals_preserves (ls : String) (c : Changes) (ct : String) :
    (critical_signals ls c ct).lines_added = c.lines_added ∧
    (critical_signals ls c ct).lines_removed = c.lines_removed ∧
    (critical_signals ls c ct).functions_added = c.functions_added ∧
    (critical_signals ls c ct).functions_modified = c.functions_modified ∧
    (critical_signals ls c ct).functions_removed = c.functions_removed ∧
    (critical_signals ls c ct).imports_added = c.imports_added ∧
    (critical_signals ls c ct).imports_removed = c.imports_removed ∧
    (critical_signals ls c ct).config_changes = c.config_changes := by
  unfold critical_signals
  exact crit_foldl_preserves ls ct critical_patterns_list c

/-- `config_signals` only ever appends to `config_changes`. -/
theorem config_signals_preserves (ls : String) (c : Changes) (ct ft : String) :
    (config_signals ls c ct ft).lines_added = c.lines_added ∧
    (config_signals ls c ct ft).lines_removed = c.lines_removed ∧
    (config_signals ls c ct ft).functions_added = c.functions_added ∧
    (config_signals ls c ct ft).functions_modified = c.functions_modified ∧
    (config_signals ls c ct ft).functions_removed = c.functions_removed ∧
    (config_signals ls c ct ft).imports_added = c.imports_added ∧
    (config_signals ls c ct ft).imports_removed = c.imports_removed ∧
    (config_signals ls c ct ft).critical_patterns = c.critical_patterns := by
  unfold config_signals
  split_ifs <;> exact ⟨rfl, rfl, rfl, rfl, rfl, rfl, rfl, rfl⟩

/-- The line-signal extractor never touches the recorded line lists. -/
theorem alc_lines (line : String) (c : Changes) (ct ft : String) :
    (analyze_line_content line c ct ft).lines_added = c.lines_added ∧
    (analyze_line_content line c ct ft).lines_removed = c.lines_removed := by
  unfold analyze_line_content
  constructor
  · exact ((config_signals_preserves _ _ _ _).1).trans
      (((critical_signals_preserves _ _ _).1).trans ((lang_signals_preserves _ _ _ _).1))
  · exact ((config_signals_preserves _ _ _ _).2.1).trans
      (((critical_signals_preserves _ _ _).2.1).trans ((lang_signals_preserves _ _ _ _).2.1))

/-- The line-signal extractor never populates the absent
`functions_removed` bucket. -/
theorem alc_functions_removed (line : String) (c : Changes) (ct ft : String) :
    (analyze_line_content line c ct ft).functions_removed = c.functions_removed := by
  unfold analyze_line_content
  exact ((config_signals_preserves _ _ _ _).2.2.2.2.1).trans
    (((critical_signals_preserves _ _ _).2.2.2.2.1).trans
      ((lang_signals_preserves _ _ _ _).2.2.2.2))

/-- With change type `added` or `removed` the extractor never touches
`functions_modified`. -/
theorem alc_functions_modified (line : String) (c : Changes) (ct ft : String)
    (h : ct = "added" ∨ ct = "removed") :
    (analyze_line_content line c ct ft).functions_modified = c.functions_modified := by
  unfold analyze_line_content
  exact ((config_signals_preserves _ _ _ _).2.2.2.1).trans
    (((critical_signals_preserves _ _ _).2.2.2.1).trans
      (lang_signals_functions_modified _ _ _ _ h))

theorem data_head_of_sw (l : String) (a : Char) (p : List Char)
    (h : strStartsWith l (String.mk (a :: p)) = true) : ∃ cs, l.data = a :: cs := by
  obtain ⟨d⟩ := l
  cases d with
  | nil => simp [strStartsWith, listHasPre, dropLit] at h
  | cons c cs =>
    cases hc : c == a with
    | true => exact ⟨cs, by simp [beq_iff_eq.mp hc]⟩
    | false => simp [strStartsWith, listHasPre, dropLit, hc] at h

theorem sw_of_head_ne (l : String) (b : Char) (cs : List Char) (hd : l.data = b :: cs)
    (a : Char) (p : List Char) (h : (b == a) = false) :
    strStartsWith l (String.mk (a :: p)) = false := by
  simp [strStartsWith, listHasPre, dropLit, hd, h]

theorem is_change_line_of_hunk (l : String) (h : strStartsWith l "@@" = true) :
    is_change_line l = false := by
  obtain ⟨cs, hd⟩ := data_head_of_sw l '@' ['@'] h
  have h1 : strStartsWith l "+" = false := sw_of_head_ne l '@' cs hd '+' [] (by decide)
  have h2 : strStartsWith l "-" = false := sw_of_head_ne l '@' cs hd '-' [] (by decide)
  simp [is_change_line, h1, h2]

theorem is_change_line_added (l : String) (h1 : strStartsWith l "+" = true)
    (h2 : strStartsWith l "+++" = false) : is_change_line l = true := by
  obtain ⟨cs, hd⟩ := data_head_of_sw l '+' [] h1
  have h3 : strStartsWith l "---" = false := sw_of_head_ne l '+' cs hd '-' ['-', '-'] (by decide)
  simp [is_change_line, h1, h2, h3]

theorem is_change_line_removed (l : String) (h1 : strStartsWith l "-" = true)
    (h2 : strStartsWith l "---" = false) : is_change_line l = true := by
  obtain ⟨cs, hd⟩ := data_head_of_sw l '-' [] h1
  have h3 : strStartsWith l "+++" = false := sw_of_head_ne l '-' cs hd '+' ['+', '+'] (by decide)
  simp [is_change_line, h1, h2, h3]

theorem is_change_line_other (l : String)
    (h2 : (strStartsWith l "+" && !strStartsWith l "+++") = false)
    (h3 : (strStartsWith l "-" && !strStartsWith l "---") = false) :
    is_change_line l = false := by
  cases ha : strStartsWith l "+" <;> cases hb : strStartsWith l "-" <;>
    simp_all [is_change_line]

theorem bool_ne_true (b : Bool) (h : ¬b = true) : b = false := by
  cases b
  · rfl
  · exact absurd rfl h

/-- Contribution of one patch line to the changed-line count. -/
def changeLineCount (l : String) : Nat := if is_change_line l then 1 else 0

theorem ppl_step_counts (ft : String) (st : Nat × Changes) (l : String) :
    (processPatchLine ft st l).2.lines_added.length
      + (processPatchLine ft st l).2.lines_removed.length
      = st.2.lines_added.length + st.2.lines_removed.length + changeLineCount l := by
  unfold processPatchLine
  split_ifs
  · rename_i h1
    simp only [changeLineCount, is_change_line_of_hunk l h1]
    cases findPlusNum l.data <;> simp
  · rename_i h1 h2
    rw [Bool.and_eq_true] at h2
    obtain ⟨ha, hb⟩ := h2
    have hb' : strStartsWith l "+++" = false := by simpa using hb
    simp only [changeLineCount, is_change_line_added l ha hb']
    rw [(alc_lines _ _ _ _).1, (alc_lines _ _ _ _).2]
    simp
    omega
  · rename_i h1 h2 h3
    rw [Bool.and_eq_true] at h3
    obtain ⟨ha, hb⟩ := h3
    have hb' : strStartsWith l "---" = false := by simpa using hb
    simp only [changeLineCount, is_change_line_removed l ha hb']
    rw [(alc_lines _ _ _ _).1, (alc_lines _ _ _ _).2]
    simp
    omega
  · rename_i h1 h2 h3 h4
    simp only [changeLineCount,
      is_change_line_other l (bool_ne_true _ h2) (bool_ne_true _ h3)]
    simp
  · rename_i h1 h2 h3 h4
    simp only [changeLineCount,
      is_change_line_other l (bool_ne_true _ h2) (bool_ne_true _ h3)]
    simp

theorem ppl_fold_counts (ft : String) (lines : List String) :
    ∀ st : Nat × Changes,
      (lines.foldl (processPatchLine ft) st).2.lines_added.length
        + (lines.foldl (processPatchLine ft) st).2.lines_removed.length
        = st.2.lines_added.length + st.2.lines_removed.length
          + (lines.filter is_change_line).length := by
  induction lines with
  | nil => intro st; simp
  | cons l ls ih =>
    intro st
    rw [List.foldl_cons, ih (processPatchLine ft st l)]
    have hstep := ppl_step_counts ft st l
    cases hc : is_change_line l <;>
      simp [List.filter_cons, hc, changeLineCount] at hstep ⊢ <;> omega

theorem ppl_step_added (ft : String) (st : Nat × Changes) (l : String) :
    (processPatchLine ft st l).2.lines_added = st.2.lines_added ∨
    (strStartsWith l "+" = true ∧ strStartsWith l "+++" = false ∧
      (processPatchLine ft st l).2.lines_added = st.2.lines_added ++ [⟨st.1, strDrop1 l⟩]) := by
  unfold processPatchLine
  split_ifs
  · cases findPlusNum l.data <;> exact Or.inl rfl
  · rename_i h1 h2
    rw [Bool.and_eq_true] at h2
    refine Or.inr ⟨h2.1, by simpa using h2.2, ?_⟩
    rw [(alc_lines _ _ _ _).1]
  · refine Or.inl ?_
    rw [(alc_lines _ _ _ _).1]
  · exact Or.inl rfl
  · exact Or.inl rfl

theorem ppl_step_removed (ft : String) (st : Nat × Changes) (l : String) :
    (processPatchLine ft st l).2.lines_removed = st.2.lines_removed ∨
    (strStartsWith l "-" = true ∧ strStartsWith l "---" = false ∧
      (processPatchLine ft st l).2.lines_removed = st.2.lines_removed ++ [⟨st.1, strDrop1 l⟩]) := by
  unfold processPatchLine
  split_ifs
  · cases findPlusNum l.data <;> exact Or.inl rfl
  · refine Or.inl ?_
    rw [(alc_lines _ _ _ _).2]
  · rename_i h1 h2 h3
    rw [Bool.and_eq_true] at h3
    refine Or.inr ⟨h3.1, by simpa using h3.2, ?_⟩
    rw [(alc_lines _ _ _ _).2]
  · exact Or.inl rfl
  · exact Or.inl rfl

theorem ppl_fold_added_mem (ft : String) (lines : List String) :
    ∀ st : Nat × Changes, ∀ r ∈ (lines.foldl (processPatchLine ft) st).2.lines_added,
      r ∈ st.2.lines_added ∨ ∃ l ∈ lines, strStartsWith l "+" = true ∧
        strStartsWith l "+++" = false ∧ r.content = strDrop1 l := by
  induction lines with
  | nil => intro st r hr; exact Or.inl hr
  | cons l ls ih =>
    intro st r hr
    rw [List.foldl_cons] at hr
    rcases ih (processPatchLine ft st l) r hr with hmem | ⟨l', hl', p1, p2, p3⟩
    · rcases ppl_step_added ft st l with heq | ⟨q1, q2, heq⟩
      · rw [heq] at hmem
        exact Or.inl hmem
      · rw [heq, List.mem_append] at hmem
        rcases hmem with hmem | hmem
        · exact Or.inl hmem
        · refine Or.inr ⟨l, List.mem_cons_self l ls, q1, q2, ?_⟩
          rw [List.mem_singleton.mp hmem]
    · exact Or.inr ⟨l', List.mem_cons_of_mem l hl', p1, p2, p3⟩

theorem ppl_fold_removed_mem (ft : String) (lines : List String) :
    ∀ st : Nat × Changes, ∀ r ∈ (lines.foldl (processPatchLine ft) st).2.lines_removed,
      r ∈ st.2.lines_removed ∨ ∃ l ∈ lines, strStartsWith l "-" = true ∧
        strStartsWith l "---" = false ∧ r.content = strDrop1 l := by
  induction lines with
  | nil => intro st r hr; exact Or.inl hr
  | cons l ls ih =>
    intro st r hr
    rw [List.foldl_cons] at hr
    rcases ih (processPatchLine ft st l) r hr with hmem | ⟨l', hl', p1, p2, p3⟩
    · rcases ppl_step_removed ft st l with heq | ⟨q1, q2, heq⟩
      · rw [heq] at hmem
        exact Or.inl hmem
      · rw [heq, List.mem_append] at hmem
        rcases hmem with hmem | hmem
        · exact Or.inl hmem
        · refine Or.inr ⟨l, List.mem_cons_self l ls, q1, q2, ?_⟩
          rw [List.mem_singleton.mp hmem]
    · exact Or.inr ⟨l', List.mem_cons_of_mem l hl', p1, p2, p3⟩

theorem ppl_step_fm (ft : String) (st : Nat × Changes) (l : String) :
    (processPatchLine ft st l).2.functions_modified = st.2.functions_modified := by
  unfold processPatchLine
  split_ifs
  · cases findPlusNum l.data <;> rfl
  · rw [alc_functions_modified _ _ _ _ (Or.inl rfl)]
  · rw [alc_functions_modified _ _ _ _ (Or.inr rfl)]
  · rfl
  · rfl

theorem ppl_step_fr (ft : String) (st : Nat × Changes) (l : String) :
    (processPatchLine ft st l).2.functions_removed = st.2.functions_removed := by
  unfold processPatchLine
  split_ifs
  · cases findPlusNum l.data <;> rfl
  · rw [alc_functions_removed]
  · rw [alc_functions_removed]
  · rfl
  · rfl

theorem ppl_fold_fm (ft : String) (lines : List String) :
    ∀ st : Nat × Changes,
      (lines.foldl (processPatchLine ft) st).2.functions_modified = st.2.functions_modified := by
  induction lines with
  | nil => intro st; rfl
  | cons l ls ih =>
    intro st
    rw [List.foldl_cons, ih (processPatchLine ft st l), ppl_step_fm]

theorem ppl_fold_fr (ft : String) (lines : List String) :
    ∀ st : Nat × Changes,
      (lines.foldl (processPatchLine ft) st).2.functions_removed = st.2.functions_removed := by
  induction lines with
  | nil => intro st; rfl
  | cons l ls ih =>
    intro st
    rw [List.foldl_cons, ih (processPatchLine ft st l), ppl_step_fr]

theorem lang_signals_py_added_def (ls : String) (c : Changes) (name : String)
    (h : pyDefName ls.data = some name) :
    (lang_signals ls c "added" "python").functions_added = c.functions_added ++ [name] := by
  have hk : ("functions_" ++ "added" : String) = "functions_added" := rfl
  have hk2 : ("imports_" ++ "added" : String) = "imports_added" := rfl
  have hne : ("imports_added" : String) ≠ "functions_added" := by decide
  unfold lang_signals
  rw [if_pos rfl, h, hk, hk2]
  split_ifs
  · rw [appendIfKey_functions_added_ne _ _ _ hne, appendIfKey_functions_added_eq]
  · rw [appendIfKey_functions_added_eq]

theorem lang_signals_removed_fa (ls : String) (c : Changes) (ft : String) :
    (lang_signals ls c "removed" ft).functions_added = c.functions_added := by
  have hk : ("functions_" ++ "removed" : String) = "functions_removed" := rfl
  have hk2 : ("imports_" ++ "removed" : String) = "imports_removed" := rfl
  have hne : ("functions_removed" : String) ≠ "functions_added" := by decide
  have hne2 : ("imports_removed" : String) ≠ "functions_added" := by decide
  unfold lang_signals
  split_ifs <;> cases hd : pyDefName ls.data <;>
    simp [hk, hk2, appendIfKey_functions_added_ne _ _ _ hne,
      appendIfKey_functions_added_ne _ _ _ hne2]

theorem lang_signals_js_added_func (ls : String) (c : Changes) (ft : String)
    (hft : ft = "javascript" ∨ ft = "typescript") (h : jsFuncMatch ls.data = true) :
    (lang_signals ls c "added" ft).functions_added
      = c.functions_added
          ++ [if ls.data.length > 50 then String.mk (ls.data.take 50) ++ "..." else ls] := by
  have hk : ("functions_" ++ "added" : String) = "functions_added" := rfl
  have hk2 : ("imports_" ++ "added" : String) = "imports_added" := rfl
  have hne : ("imports_added" : String) ≠ "functions_added" := by decide
  rcases hft with h1 | h1 <;> subst h1 <;>
    · unfold lang_signals
      rw [if_neg (by decide), if_pos (by decide), if_pos h, hk, hk2]
      split_ifs <;>
        simp [appendIfKey_functions_added_ne _ _ _ hne, appendIfKey_functions_added_eq]

theorem lang_signals_js_imports_added (ls : String) (c : Changes) (ft : String)
    (hft : ft = "javascript" ∨ ft = "typescript")
    (hi : (strStartsWith ls "import " || strStartsWith ls "require(") = true) :
    (lang_signals ls c "added" ft).imports_added = c.imports_added ++ [ls] := by
  have hk : ("functions_" ++ "added" : String) = "functions_added" := rfl
  have hk2 : ("imports_" ++ "added" : String) = "imports_added" := rfl
  have hne : ("functions_added" : String) ≠ "imports_added" := by decide
  rcases hft with h1 | h1 <;> subst h1 <;>
    · unfold lang_signals
      rw [if_neg (by decide), if_pos (by decide), hk, hk2, if_pos hi]
      split_ifs <;>
        simp [appendIfKey_imports_added_eq, appendIfKey_imports_added_ne _ _ _ hne]

theorem lang_signals_js_imports_removed (ls : String) (c : Changes) (ft : String)
    (hft : ft = "javascript" ∨ ft = "typescript")
    (hi : (strStartsWith ls "import " || strStartsWith ls "require(") = true) :
    (lang_signals ls c "removed" ft).imports_removed = c.imports_removed ++ [ls] := by
  have hk : ("functions_" ++ "removed" : String) = "functions_removed" := rfl
  have hk2 : ("imports_" ++ "removed" : String) = "imports_removed" := rfl
  have hne : ("functions_removed" : String) ≠ "imports_removed" := by decide
  rcases hft with h1 | h1 <;> subst h1 <;>
    · unfold lang_signals
      rw [if_neg (by decide), if_pos (by decide), hk, hk2, if_pos hi]
      split_ifs <;>
        simp [appendIfKey_imports_removed_eq, appendIfKey_imports_removed_ne _ _ _ hne]

/-- `react` is not in the javascript/typescript type test, so `lang_signals`
is the identity for react files. -/
theorem lang_signals_react (ls : String) (c : Changes) (ct : String) :
    lang_signals ls c ct "react" = c := rfl

theorem alc_functions_added_py (line : String) (c : Changes) (name : String)
    (h : pyDefName (strTrim line).data = some name) :
    (analyze_line_content line c "added" "python").functions_added
      = c.functions_added ++ [name] := by
  unfold analyze_line_content
  rw [(config_signals_preserves _ _ _ _).2.2.1, (critical_signals_preserves _ _ _).2.2.1]
  exact lang_signals_py_added_def _ _ _ h

theorem alc_functions_added_removed (line : String) (c : Changes) (ft : String) :
    (analyze_line_content line c "removed" ft).functions_added = c.functions_added := by
  unfold analyze_line_content
  rw [(config_signals_preserves _ _ _ _).2.2.1, (critical_signals_preserves _ _ _).2.2.1]
  exact lang_signals_removed_fa _ _ _

theorem alc_functions_added_js (line : String) (c : Changes) (ft : String)
    (hft : ft = "javascript" ∨ ft = "typescript")
    (h : jsFuncMatch (strTrim line).data = true) :
    (analyze_line_content line c "added" ft).functions_added
      = c.functions_added
          ++ [if (strTrim line).data.length > 50 then
                String.mk ((strTrim line).data.take 50) ++ "..." else strTrim line] := by
  unfold analyze_line_content
  rw [(config_signals_preserves _ _ _ _).2.2.1, (critical_signals_preserves _ _ _).2.2.1]
  exact lang_signals_js_added_func _ _ _ hft h

theorem alc_imports_added_js (line : String) (c : Changes) (ft : String)
    (hft : ft = "javascript" ∨ ft = "typescript")
    (hi : (strStartsWith (strTrim line) "import "
        || strStartsWith (strTrim line) "require(") = true) :
    (analyze_line_content line c "added" ft).imports_added
      = c.imports_added ++ [strTrim line] := by
  unfold analyze_line_content
  rw [(config_signals_preserves _ _ _ _).2.2.2.2.2.1,
    (critical_signals_preserves _ _ _).2.2.2.2.2.1]
  exact lang_signals_js_imports_added _ _ _ hft hi

theorem alc_imports_removed_js (line : String) (c : Changes) (ft : String)
    (hft : ft = "javascript" ∨ ft = "typescript")
    (hi : (strStartsWith (strTrim line) "import "
        || strStartsWith (strTrim line) "require(") = true) :
    (analyze_line_content line c "removed" ft).imports_removed
      = c.imports_removed ++ [strTrim line] := by
  unfold analyze_line_content
  rw [(config_signals_preserves _ _ _ _).2.2.2.2.2.2.1,
    (critical_signals_preserves _ _ _).2.2.2.2.2.2.1]
  exact lang_signals_js_imports_removed _ _ _ hft hi

theorem alc_react_no_lang_signals (line : String) (c : Changes) (ct : String) :
    (analyze_line_content line c ct "react").functions_added = c.functions_added ∧
    (analyze_line_content line c ct "react").functions_modified = c.functions_modified ∧
    (analyze_line_content line c ct "react").functions_removed = c.functions_removed ∧
    (analyze_line_content line c ct "react").imports_added = c.imports_added ∧
    (analyze_line_content line c ct "react").imports_removed = c.imports_removed := by
  simp only [analyze_line_content, lang_signals_react]
  refine ⟨?_, ?_, ?_, ?_, ?_⟩
  · exact ((config_signals_preserves _ _ _ _).2.2.1).trans
      ((critical_signals_preserves _ _ _).2.2.1)
  · exact ((config_signals_preserves _ _ _ _).2.2.2.1).trans
      ((critical_signals_preserves _ _ _).2.2.2.1)
  · exact ((config_signals_preserves _ _ _ _).2.2.2.2.1).trans
      ((critical_signals_preserves _ _ _).2.2.2.2.1)
  · exact ((config_signals_preserves _ _ _ _).2.2.2.2.2.1).trans
      ((critical_signals_preserves _ _ _).2.2.2.2.2.1)
  · exact ((config_signals_preserves _ _ _ _).2.2.2.2.2.2.1).trans
      ((critical_signals_preserves _ _ _).2.2.2.2.2.2.1)

theorem risk_scores_get_le (s : String) : risk_scores_get s ≤ 5 := by
  unfold risk_scores_get
  split_ifs <;> omega

theorem sum_scores_le (l : List FileAnalysis) :
    (l.map (fun a => risk_scores_get a.risk_level)).sum ≤ 5 * l.length := by
  induction l with
  | nil => simp
  | cons x xs ih =>
    simp only [List.map_cons, List.sum_cons, List.length_cons]
    have hx := risk_scores_get_le x.risk_level
    omega

theorem avg_level_mono (a b : ℚ) (hab : a ≤ b) :
    risk_rank (avg_level a) ≤ risk_rank (avg_level b) := by
  unfold avg_level
  split_ifs <;> simp [risk_rank] <;> linarith

/-- `analyze_file_diff` never populates `functions_modified`: the extractor
is only invoked with change types `added` and `removed`. -/
theorem afd_functions_modified (filename : String) (patch : Option String) :
    (analyze_file_diff filename patch).changes.functions_modified = [] := by
  cases patch with
  | none => rfl
  | some p =>
    by_cases hp : p = ""
    · simp [analyze_file_diff, hp, emptyChanges]
    · simp only [analyze_file_diff, if_neg hp]
      exact (ppl_fold_fm _ _ _).trans rfl

/-- `analyze_file_diff` never populates the absent `functions_removed`
bucket. -/
theorem afd_functions_removed (filename : String) (patch : Option String) :
    (analyze_file_diff filename patch).changes.functions_removed = [] := by
  cases patch with
  | none => rfl
  | some p =>
    by_cases hp : p = ""
    · simp [analyze_file_diff, hp, emptyChanges]
    · simp only [analyze_file_diff, if_neg hp]
      exact (ppl_fold_fr _ _ _).trans rfl

theorem breaking_fold_count (l : List FileAnalysis)
    (h : ∀ a ∈ l, a.changes.functions_removed = []) :
    ∀ acc : Nat,
      l.foldl (fun acc a =>
        if !a.changes.functions_removed.isEmpty
            || ((["config", "yaml"] : List String).contains a.file_type
                && a.risk_level == "high") then acc + 1 else acc) acc
      = acc + l.countP (fun a =>
          (["config", "yaml"] : List String).contains a.file_type
            && a.risk_level == "high") := by
  induction l with
  | nil => intro acc; simp
  | cons x xs ih =>
    intro acc
    have hx : x.changes.functions_removed = [] := h x (List.mem_cons_self x xs)
    have hxs : ∀ a ∈ xs, a.changes.functions_removed = [] :=
      fun a ha => h a (List.mem_cons_of_mem x ha)
    rw [List.foldl_cons, ih hxs, List.countP_cons]
    simp only [hx, List.isEmpty_nil, Bool.not_true, Bool.false_or]
    cases hc : ((["config", "yaml"] : List String).contains x.file_type
        && x.risk_level == "high") <;> simp [hc] <;> omega

theorem breaking_changes_count_eq (l : List FileAnalysis)
    (h : ∀ a ∈ l, a.changes.functions_removed = []) :
    breaking_changes_count l
      = l.countP (fun a =>
          (["config", "yaml"] : List String).contains a.file_type
            && a.risk_level == "high") := by
  unfold breaking_changes_count
  rw [breaking_fold_count l h 0]
  omega

/-- Projection of the metrics record: the breaking-change tier is the
thresholded `breaking_changes` counter. -/
theorem metrics_breaking_projection (l : List FileAnalysis) (hne : l.isEmpty = false) :
    (calculate_code_quality_metrics l).breaking_change_risk
      = (if breaking_changes_count l > 0 then
          (if breaking_changes_count l > 2 then "high" else "medium") else "low") := by
  unfold calculate_code_quality_metrics
  rw [hne]
  rfl

/-- C1 counterexample: on the empty change set the metrics function returns
its raw initializer dict, whose maintainability score is 0 (not 100) and
whose test-coverage impact is "unknown" (not "none"). -/
theorem C1_counterexample :
    (calculate_code_quality_metrics []).maintainability_score ≠ 100 ∧
    (calculate_code_quality_metrics []).test_coverage_impact ≠ "none" := by
  constructor <;> decide

/-- C1 (amended): `AnalyzeChangeSet` on the empty sequence yields
overallRisk low, the summary string "No file analysis available", and the
initializer quality metrics: complexity 0, maintainability 0, security 0,
test-coverage impact "unknown", documentation impact "none", and
dependency, breaking-change and performance risks all low. -/
theorem C1_empty_changeset :
    calculate_pr_risk [] = "low" ∧
    generate_pr_summary [] = "No file analysis available" ∧
    calculate_code_quality_metrics [] = default_quality_metrics ∧
    default_quality_metrics.complexity_score = 0 ∧
    default_quality_metrics.maintainability_score = 0 ∧
    default_quality_metrics.security_risk_score = 0 ∧
    default_quality_metrics.test_coverage_impact = "unknown" ∧
    default_quality_metrics.documentation_impact = "none" ∧
    default_quality_metrics.dependency_risk = "low" ∧
    default_quality_metrics.breaking_change_risk = "low" ∧
    default_quality_metrics.performance_impact = "low" :=
  ⟨rfl, rfl, rfl, rfl, rfl, rfl, rfl, rfl, rfl, rfl, rfl⟩

/-- C2 counterexample: a removed python `def` line produces no recorded
function signal at all — every function bucket of the result is empty. -/
theorem C2_counterexample :
    pyDefName (strTrim "def foo():").data = some "foo" ∧
    (analyze_file_diff "a.py" (some "-def foo():")).file_type = "python" ∧
    (analyze_file_diff "a.py" (some "-def foo():")).changes.functions_added = [] ∧
    (analyze_file_diff "a.py" (some "-def foo():")).changes.functions_modified = [] ∧
    (analyze_file_diff "a.py" (some "-def foo():")).changes.functions_removed = [] :=
  ⟨rfl, rfl, rfl, rfl, rfl⟩

/-- C2 (amended): for python files an added `def <identifier>(` line records
the function name into `functions_added`; a removed `def` line is recorded
nowhere — the computed key `functions_removed` is not a bucket of the
changes dict, so all function buckets are left unchanged. -/
theorem C2_python_def_bucketing (line : String) (c : Changes) (name : String)
    (h : pyDefName (strTrim line).data = some name) :
    (analyze_line_content line c "added" "python").functions_added
        = c.functions_added ++ [name] ∧
    (analyze_line_content line c "removed" "python").functions_added = c.functions_added ∧
    (analyze_line_content line c "removed" "python").functions_modified
        = c.functions_modified ∧
    (analyze_line_content line c "removed" "python").functions_removed
        = c.functions_removed :=
  ⟨alc_functions_added_py line c name h,
    alc_functions_added_removed line c "python",
    alc_functions_modified line c "removed" "python" (Or.inr rfl),
    alc_functions_removed line c "removed" "python"⟩

/-- C2 witness: concrete instance of the amended claim at `def foo():`. -/
theorem C2_witness :
    pyDefName (strTrim "def foo():").data = some "foo" ∧
    ((analyze_line_content "def foo():" emptyChanges "added" "python").functions_added
        = emptyChanges.functions_added ++ ["foo"] ∧
      (analyze_line_content "def foo():" emptyChanges "removed" "python").functions_added
        = emptyChanges.functions_added) := by
  have h := C2_python_def_bucketing "def foo():" emptyChanges "foo" (by decide)
  exact ⟨by decide, h.1, h.2.1⟩

/-- C3 counterexample: a `.jsx` file classifies as react, the added line
matches the JS function shape, yet no function signal is recorded — the
extractor's type test covers only javascript and typescript. -/
theorem C3_counterexample :
    get_file_type "a.jsx" = "react" ∧
    jsFuncMatch (strTrim "function foo() \x7b").data = true ∧
    (analyze_file_diff "a.jsx" (some "+function foo() \x7b")).changes.functions_added = [] :=
  ⟨rfl, by decide, rfl⟩

/-- C3 (amended): for javascript and typescript files (react files are
excluded by the type test and receive no JS-specific extraction), an added
function-shape line is appended to `functions_added` truncated to 50
characters with an ellipsis when longer; a removed function-shape line is
dropped (there is no `functions_removed` bucket); and `import `/`require(`
lines are appended to `imports_added`/`imports_removed` by change type. -/
theorem C3_js_ts_extraction (ft : String) (hft : ft = "javascript" ∨ ft = "typescript")
    (lineF lineI lineR : String) (c : Changes)
    (hF : jsFuncMatch (strTrim lineF).data = true)
    (hI : (strStartsWith (strTrim lineI) "import "
        || strStartsWith (strTrim lineI) "require(") = true) :
    ((analyze_line_content lineF c "added" ft).functions_added
        = c.functions_added
            ++ [if (strTrim lineF).data.length > 50 then
                  String.mk ((strTrim lineF).data.take 50) ++ "..."
                else strTrim lineF]) ∧
    ((analyze_line_content lineF c "removed" ft).functions_added = c.functions_added) ∧
    ((analyze_line_content lineF c "removed" ft).functions_modified = c.functions_modified) ∧
    ((analyze_line_content lineF c "removed" ft).functions_removed = c.functions_removed) ∧
    ((analyze_line_content lineI c "added" ft).imports_added
        = c.imports_added ++ [strTrim lineI]) ∧
    ((analyze_line_content lineI c "removed" ft).imports_removed
        = c.imports_removed ++ [strTrim lineI]) ∧
    ((analyze_line_content lineR c "added" "react").functions_added = c.functions_added) ∧
    ((analyze_line_content lineR c "added" "react").imports_added = c.imports_added) :=
  ⟨alc_functions_added_js lineF c ft hft hF,
    alc_functions_added_removed lineF c ft,
    alc_functions_modified lineF c "removed" ft (Or.inr rfl),
    alc_functions_removed lineF c "removed" ft,
    alc_imports_added_js lineI c ft hft hI,
    alc_imports_removed_js lineI c ft hft hI,
    (alc_react_no_lang_signals lineR c "added").1,
    (alc_react_no_lang_signals lineR c "added").2.2.2.1⟩

/-- C3 witness: concrete instance of the amended claim for javascript. -/
theorem C3_witness :
    ((analyze_line_content "function foo() \x7b" emptyChanges "added" "javascript").functions_added
        = emptyChanges.functions_added
            ++ [if (strTrim "function foo() \x7b").data.length > 50 then
                  String.mk ((strTrim "function foo() \x7b").data.take 50) ++ "..."
                else strTrim "function foo() \x7b"]) ∧
    ((analyze_line_content "require(x)" emptyChanges "added" "javascript").imports_added
        = emptyChanges.imports_added ++ [strTrim "require(x)"]) := by
  have h := C3_js_ts_extraction "javascript" (Or.inl rfl)
    "function foo() \x7b" "require(x)" "z" emptyChanges (by decide) (by decide)
  exact ⟨h.1, h.2.2.2.2.1⟩

/-- C4 counterexample: a path-qualified dependency manifest or makefile is
not recognized — the source compares the whole lower-cased filename, not
the base name. -/
theorem C4_counterexample :
    get_file_type "src/requirements.txt" = "unknown" ∧
    get_file_type "src/requirements.txt" ≠ "dependency" ∧
    get_file_type "src/Makefile" = "unknown" ∧
    get_file_type "src/Makefile" ≠ "makefile" :=
  ⟨rfl, by decide, rfl, by decide⟩

/-- C4 (amended): the classifier returns `dependency` exactly when the
*whole* lower-cased filename equals one of the four dependency manifests,
and `makefile` exactly when it equals one of the three makefile names; a
filename with a directory prefix fails the equality test. -/
theorem C4_exact_name_classification (fn : String) :
    (strToLower fn ∈ (["requirements.txt", "package.json", "cargo.toml", "pom.xml"] :
        List String) → get_file_type fn = "dependency") ∧
    (strToLower fn ∈ (["makefile", "makefile.am", "makefile.in"] : List String)
      → get_file_type fn = "makefile") := by
  constructor
  · intro h
    simp only [List.mem_cons, List.not_mem_nil, or_false] at h
    simp only [get_file_type]
    rcases h with h | h | h | h <;> rw [h] <;> rfl
  · intro h
    simp only [List.mem_cons, List.not_mem_nil, or_false] at h
    simp only [get_file_type]
    rcases h with h | h | h <;> rw [h] <;> rfl

/-- C4 witness: concrete instances of the amended claim. -/
theorem C4_witness :
    get_file_type "requirements.txt" = "dependency" ∧
    get_file_type "Makefile" = "makefile" := by
  refine ⟨(C4_exact_name_classification "requirements.txt").1 ?_,
    (C4_exact_name_classification "Makefile").2 ?_⟩ <;> decide

/-- C5 counterexample: the additive risk score of the Dockerfile example is
7, not 5 — the filename check (`dockerfile` is a high-risk filename
substring) contributes another 2 on top of the type and the pattern. -/
theorem C5_counterexample :
    change_risk_score (analyze_file_diff "Dockerfile" (some "+RUN sudo chmod 777 /app")).changes
        "docker" "Dockerfile" = 7 ∧ (7 : Nat) ≠ 5 :=
  ⟨rfl, by decide⟩

/-- C5 (amended): filename `Dockerfile` with patch `+RUN sudo chmod 777 /app`
yields fileType docker, exactly one critical-pattern entry, riskLevel high,
and an additive risk score of 2 (file type) + 2 (high-risk filename) + 3
(critical pattern) = 7. -/
theorem C5_dockerfile_example :
    (analyze_file_diff "Dockerfile" (some "+RUN sudo chmod 777 /app")).file_type = "docker" ∧
    (analyze_file_diff "Dockerfile"
        (some "+RUN sudo chmod 777 /app")).changes.critical_patterns.length = 1 ∧
    (analyze_file_diff "Dockerfile" (some "+RUN sudo chmod 777 /app")).risk_level = "high" ∧
    change_risk_score (analyze_file_diff "Dockerfile" (some "+RUN sudo chmod 777 /app")).changes
        "docker" "Dockerfile" = 2 + 2 + 3 :=
  ⟨rfl, rfl, rfl, rfl⟩

/-- C6: for a non-empty patch, the recorded added plus removed line count
equals the number of patch lines starting with `+`/`-` excluding the
`+++`/`---` markers, and every recorded line originates from such a line of
the patch with its leading sign stripped. -/
theorem C6_line_counts (filename patch : String) (hp : patch ≠ "") :
    ((analyze_file_diff filename (some patch)).changes.lines_added.length
        + (analyze_file_diff filename (some patch)).changes.lines_removed.length
      = ((splitLines patch).filter is_change_line).length) ∧
    (∀ r ∈ (analyze_file_diff filename (some patch)).changes.lines_added,
      ∃ l ∈ splitLines patch, strStartsWith l "+" = true ∧
        strStartsWith l "+++" = false ∧ r.content = strDrop1 l) ∧
    (∀ r ∈ (analyze_file_diff filename (some patch)).changes.lines_removed,
      ∃ l ∈ splitLines patch, strStartsWith l "-" = true ∧
        strStartsWith l "---" = false ∧ r.content = strDrop1 l) := by
  simp only [analyze_file_diff, if_neg hp]
  refine ⟨?_, ?_, ?_⟩
  · have h := ppl_fold_counts (get_file_type filename) (splitLines patch) (0, emptyChanges)
    simpa [emptyChanges] using h
  · intro r hr
    rcases ppl_fold_added_mem (get_file_type filename) (splitLines patch) (0, emptyChanges) r hr
      with h | h
    · simp [emptyChanges] at h
    · exact h
  · intro r hr
    rcases ppl_fold_removed_mem (get_file_type filename) (splitLines patch) (0, emptyChanges) r hr
      with h | h
    · simp [emptyChanges] at h
    · exact h

/-- C6 witness: concrete instance of the count equation. -/
theorem C6_witness :
    (("+a\n-b\n+++ x" : String) ≠ "") ∧
    ((analyze_file_diff "m.py" (some "+a\n-b\n+++ x")).changes.lines_added.length
        + (analyze_file_diff "m.py" (some "+a\n-b\n+++ x")).changes.lines_removed.length
      = ((splitLines "+a\n-b\n+++ x").filter is_change_line).length) :=
  ⟨by decide, (C6_line_counts "m.py" "+a\n-b\n+++ x" (by decide)).1⟩

theorem avg_append_le (T n : Nat) (hn : 0 < n) (hT : T ≤ 5 * n) :
    (T : ℚ) / (n : ℚ) ≤ ((T + 5 : ℕ) : ℚ) / ((n + 1 : ℕ) : ℚ) := by
  have hq0 : (0 : ℚ) < (n : ℚ) := by exact_mod_cast hn
  have hq1 : (0 : ℚ) < ((n + 1 : ℕ) : ℚ) := by exact_mod_cast Nat.succ_pos n
  rw [div_le_div_iff₀ hq0 hq1]
  have hT' : (T : ℚ) ≤ 5 * (n : ℚ) := by exact_mod_cast hT
  push_cast
  nlinarith [hT']

/-- C7: appending a duplicate of a high-risk member of a change set never
decreases the overall risk tier (low < medium < high). -/
theorem C7_overall_risk_monotone (S : List FileAnalysis) (f : FileAnalysis)
    (hf : f ∈ S) (hh : f.risk_level = "high") :
    risk_rank (calculate_pr_risk S) ≤ risk_rank (calculate_pr_risk (S ++ [f])) := by
  have hne : S ≠ [] := List.ne_nil_of_mem hf
  have hE : S.isEmpty = false := by
    cases S
    · exact absurd rfl hne
    · rfl
  have hE2 : (S ++ [f]).isEmpty = false := by cases S <;> rfl
  have hlen : 0 < S.length := List.length_pos.mpr hne
  have h5 : risk_scores_get f.risk_level = 5 := by rw [hh]; rfl
  have hsum : ((S ++ [f]).map (fun a => risk_scores_get a.risk_level)).sum
      = (S.map (fun a => risk_scores_get a.risk_level)).sum + 5 := by
    rw [List.map_append, List.sum_append]
    simp [h5]
  have hlen2 : (S ++ [f]).length = S.length + 1 := by simp
  have e1 : calculate_pr_risk S
      = avg_level (((S.map (fun a => risk_scores_get a.risk_level)).sum : ℚ)
          / (S.length : ℚ)) := by
    unfold calculate_pr_risk
    rw [hE]
    rfl
  have e2 : calculate_pr_risk (S ++ [f])
      = avg_level ((((S.map (fun a => risk_scores_get a.risk_level)).sum + 5 : ℕ) : ℚ)
          / ((S.length + 1 : ℕ) : ℚ)) := by
    unfold calculate_pr_risk
    rw [hE2, hsum, hlen2]
    rfl
  rw [e1, e2]
  refine avg_level_mono _ _ ?_
  exact avg_append_le _ _ hlen (sum_scores_le S)

/-- C7 witness: one high-risk analysis duplicated. -/
theorem C7_witness :
    (FileAnalysis.mk "Dockerfile" "docker" emptyChanges "high" none
        ∈ [FileAnalysis.mk "Dockerfile" "docker" emptyChanges "high" none]) ∧
    (FileAnalysis.mk "Dockerfile" "docker" emptyChanges "high" none).risk_level = "high" ∧
    risk_rank (calculate_pr_risk [FileAnalysis.mk "Dockerfile" "docker" emptyChanges "high" none])
      ≤ risk_rank (calculate_pr_risk
          ([FileAnalysis.mk "Dockerfile" "docker" emptyChanges "high" none]
            ++ [FileAnalysis.mk "Dockerfile" "docker" emptyChanges "high" none])) :=
  ⟨List.mem_singleton_self _, rfl,
    C7_overall_risk_monotone _ _ (List.mem_singleton_self _) rfl⟩

/-- C8: an absent or empty patch is valid input: the analysis is total there
and returns riskLevel low with all signal collections empty. -/
theorem C8_empty_patch (filename : String) (patch : Option String)
    (h : patch = none ∨ patch = some "") :
    (analyze_file_diff filename patch).risk_level = "low" ∧
    (analyze_file_diff filename patch).changes = emptyChanges := by
  rcases h with h | h <;> subst h <;> exact ⟨rfl, rfl⟩

/-- C8 witness: the absent-patch case at a concrete filename. -/
theorem C8_witness :
    ((none : Option String) = none ∨ (none : Option String) = some "") ∧
    (analyze_file_diff "app.py" none).risk_level = "low" ∧
    (analyze_file_diff "app.py" none).changes = emptyChanges := by
  have h := C8_empty_patch "app.py" none (Or.inl rfl)
  exact ⟨Or.inl rfl, h.1, h.2⟩

/-- C9: over analyses produced by `analyze_file_diff`, the breaking-change
risk is determined solely by the number of high-risk config/yaml files
(0 → low, 1–2 → medium, more than 2 → high); removed function lines can
never influence it because the `functions_removed` bucket is never
populated. -/
theorem C9_breaking_change_risk (files : List (String × Option String)) :
    ((calculate_code_quality_metrics
        (files.map (fun fp => analyze_file_diff fp.1 fp.2))).breaking_change_risk
      = claimed_breaking_risk_of_count
          ((files.map (fun fp => analyze_file_diff fp.1 fp.2)).countP
            (fun a => (["config", "yaml"] : List String).contains a.file_type
              && a.risk_level == "high"))) ∧
    ∀ fp ∈ files, (analyze_file_diff fp.1 fp.2).changes.functions_removed = [] := by
  constructor
  · cases files with
    | nil => decide
    | cons f fs =>
      have hE : (((f :: fs).map (fun fp => analyze_file_diff fp.1 fp.2)).isEmpty) = false := rfl
      rw [metrics_breaking_projection _ hE, breaking_changes_count_eq _ ?hfr]
      case hfr =>
        intro a ha
        obtain ⟨fp, hfp, rfl⟩ := List.mem_map.mp ha
        exact afd_functions_removed fp.1 fp.2
      unfold claimed_breaking_risk_of_count
      split_ifs <;> first | rfl | omega
  · intro fp hfp
    exact afd_functions_removed fp.1 fp.2

/-- C9 witness: one high-risk yaml file gives breaking-change risk medium. -/
theorem C9_witness :
    (calculate_code_quality_metrics
        ([("a.yaml", (some "+password: x" : Option String))].map
          (fun fp => analyze_file_diff fp.1 fp.2))).breaking_change_risk = "medium" ∧
    (analyze_file_diff "a.yaml" (some "+password: x")).changes.functions_removed = [] := by
  have h := C9_breaking_change_risk [("a.yaml", (some "+password: x" : Option String))]
  exact ⟨h.1.trans (by decide), h.2 _ (List.mem_singleton_self _)⟩

/-- C10: `functions_modified` is empty in every analysis produced by
`analyze_file_diff` — the extractor is only ever invoked with change types
`added` and `removed`, so the `functions_modified` bucket is never
appended to. -/
theorem C10_functions_modified_always_empty (filename : String) (patch : Option String) :
    (analyze_file_diff filename patch).changes.functions_modified = [] :=
  afd_functions_modified filename patch
